import Mathlib

/-!
Verification of the KMRL document-console client core (src/src/App.jsx).

The embedding models the component state of the `App` component and the
event handlers that read and write it.  React `useState` cells become
fields of `AppState`; each handler becomes a function from the pre-state
(plus the outcome of the remote call it performs) to the post-state
together with its observable effects (remote requests issued, alert
messages shown, the file-input clearing).  The debounced fetch effect
(`useEffect` with a 500 ms `setTimeout`) is modelled as a small timer
machine processing a time-stamped list of filter writes.
-/

/-- A document record as held in the `documents` state array.  Field set
taken from the fields the component reads: `_id`, `title`, `summary`,
`status`, `department`, `type`, `date`, `language`, `tags`, `source`,
`starred`, optional `content`, optional `tables_data`. -/
structure DocRecord where
  _id : String
  title : String
  summary : String
  status : String
  department : String
  type : String
  date : String
  language : String
  tags : List String
  source : String
  starred : Bool
  content : Option String
  tables_data : List (List (List String))
deriving Repr, DecidableEq

/-- The three filter axes: `searchQuery`, `selectedDepartment`,
`selectedDocType`, with sentinels `""`, `"all"`, `"all-types"`. -/
structure FilterVector where
  searchQuery : String
  selectedDepartment : String
  selectedDocType : String
deriving Repr, DecidableEq

/-- The `useState` cells of the `App` component that the core logic
reads or writes. -/
structure AppState where
  activeTab : String
  searchQuery : String
  selectedDepartment : String
  selectedDocType : String
  notificationCount : Nat
  documents : List DocRecord
  totalDocuments : Int
  loading : Bool
  error : Option String
  viewingDocument : Option DocRecord
deriving Repr, DecidableEq

/-- The filter vector currently held in the component state. -/
def currentFilter (s : AppState) : FilterVector :=
  { searchQuery := s.searchQuery
    selectedDepartment := s.selectedDepartment
    selectedDocType := s.selectedDocType }

/-- Outcome of a remote call that the client only distinguishes as
ok / not ok (`response.ok`), or a transport failure (both land in the
same `catch`). -/
inductive RemoteResult where
  | ok
  | err
deriving Repr, DecidableEq

/-- Query parameters built by `fetchDocuments` (`new URLSearchParams()`
plus the three conditional `append` calls, in source order). -/
def buildParams (v : FilterVector) : List (String × String) :=
  (if v.searchQuery = "" then [] else [("search", v.searchQuery)]) ++
  (if v.selectedDepartment = "all" then [] else [("department", v.selectedDepartment)]) ++
  (if v.selectedDocType = "all-types" then [] else [("type", v.selectedDocType)])

/-- Outcome of the GET issued by `fetchDocuments`: a parsed body
(`data.documents`, `data.pagination.total`) or any failure (non-ok
status or a thrown transport error, both reaching the `catch`). -/
inductive FetchOutcome where
  | success (documents : List DocRecord) (total : Int)
  | failure
deriving Repr, DecidableEq

/-- `fetchDocuments`: sets `loading`, clears `error`, builds the query
parameters, and on success replaces `documents` and `totalDocuments`
from the response; on failure sets the error message and empties
`documents` (leaving `totalDocuments` untouched); `loading` is cleared
in the `finally`.  The second component is the parameter list of the
request that was issued. -/
def fetchDocuments (s : AppState) (outcome : FetchOutcome) :
    AppState × List (String × String) :=
  let s1 := { s with loading := true, error := none }
  let params := buildParams (currentFilter s)
  match outcome with
  | FetchOutcome.success docs total =>
      ({ s1 with documents := docs, totalDocuments := total, loading := false }, params)
  | FetchOutcome.failure =>
      ({ s1 with
          error := some "Could not load documents. Please try again later."
          documents := []
          loading := false }, params)

/-- Observable effects of `handleDeleteDocument`: whether the DELETE
request was issued, and the alert shown. -/
structure DeleteEffects where
  remoteCalled : Bool
  alertMsg : Option String
deriving Repr, DecidableEq

/-- `handleDeleteDocument`: aborts if the `window.confirm` gate is
declined; otherwise issues the DELETE and, on ok, filters the record
out of `documents` and decrements `totalDocuments`; on failure the
state is untouched and the error message is alerted. -/
def handleDeleteDocument (s : AppState) (docId : String) (confirmed : Bool)
    (remote : RemoteResult) : AppState × DeleteEffects :=
  if !confirmed then
    (s, { remoteCalled := false, alertMsg := none })
  else
    match remote with
    | RemoteResult.ok =>
        ({ s with
            documents := s.documents.filter (fun doc => doc._id != docId)
            totalDocuments := s.totalDocuments - 1 },
         { remoteCalled := true, alertMsg := some "Document deleted successfully." })
    | RemoteResult.err =>
        (s, { remoteCalled := true, alertMsg := some "Failed to delete the document." })

/-- `handleStarDocument`: computes `newStarredState` as the negation of
the passed record's current flag, issues the PUT, and only on ok maps
the flag onto the matching record(s) in `documents`; on failure the
state is untouched and the error is alerted.  Second component is the
alert message shown. -/
def handleStarDocument (s : AppState) (docToUpdate : DocRecord)
    (remote : RemoteResult) : AppState × Option String :=
  let newStarredState := !docToUpdate.starred
  match remote with
  | RemoteResult.ok =>
      ({ s with
          documents := s.documents.map (fun doc =>
            if doc._id = docToUpdate._id then { doc with starred := newStarredState }
            else doc) },
       some ("Document \"" ++ docToUpdate.title ++ "\" has been " ++
             (if newStarredState then "starred" else "unstarred") ++ "!"))
  | RemoteResult.err =>
      (s, some "Failed to update document.")

/-- `handleViewDocument`: opens the modal by setting `viewingDocument`. -/
def handleViewDocument (s : AppState) (doc : DocRecord) : AppState :=
  { s with viewingDocument := some doc }

/-- Closing the modal (the `onClose` passed to `DocumentViewModal`,
used by the close button, footer button and backdrop click): sets
`viewingDocument` back to `null`. -/
def closeViewModal (s : AppState) : AppState :=
  { s with viewingDocument := none }

/-- Outcome of the upload POST: ok with a parsed body carrying `title`;
non-ok with an error body carrying `error`; or non-ok with no `error`
field (the `errData.error || "File upload failed"` fallback). -/
inductive UploadOutcome where
  | success (title : String)
  | failureWithMsg (msg : String)
  | failureNoMsg
deriving Repr, DecidableEq

/-- Observable effects of `handleFileUpload`: whether the POST was
issued, the alerts shown, the filter vector a follow-up
`fetchDocuments()` was invoked with (if any), and whether the file
input was cleared (`event.target.value = null` in the `finally`). -/
structure UploadEffects where
  uploadCalled : Bool
  alerts : List String
  refreshedWith : Option FilterVector
  fileInputCleared : Bool
deriving Repr, DecidableEq

/-- `handleFileUpload`: returns immediately when no file is selected;
otherwise sets `loading`, clears `error`, issues the POST, and on
success alerts with the server-reported title and re-runs
`fetchDocuments` with the current filter vector; on failure sets and
alerts `"File upload failed: " ++ message`, where the message is the
server's `error` field or the generic `"File upload failed"`; in both
cases the `finally` clears `loading` and the file input. -/
def handleFileUpload (s : AppState) (files : List String)
    (outcome : UploadOutcome) : AppState × UploadEffects :=
  match files with
  | [] => (s, { uploadCalled := false, alerts := [], refreshedWith := none,
                fileInputCleared := false })
  | _file :: _ =>
      let s1 := { s with loading := true, error := none }
      match outcome with
      | UploadOutcome.success title =>
          ({ s1 with loading := false },
           { uploadCalled := true
             alerts := ["Successfully uploaded and processed: " ++ title]
             refreshedWith := some (currentFilter s)
             fileInputCleared := true })
      | UploadOutcome.failureWithMsg msg =>
          ({ s1 with error := some ("File upload failed: " ++ msg), loading := false },
           { uploadCalled := true
             alerts := ["File upload failed: " ++ msg]
             refreshedWith := none
             fileInputCleared := true })
      | UploadOutcome.failureNoMsg =>
          ({ s1 with
              error := some ("File upload failed: " ++ "File upload failed")
              loading := false },
           { uploadCalled := true
             alerts := ["File upload failed: " ++ "File upload failed"]
             refreshedWith := none
             fileInputCleared := true })

/-! ## Debounce machine

The `useEffect` keyed on `fetchDocuments` (whose `useCallback` identity
changes exactly when one of the three filter axes is written) schedules
`fetchDocuments` after 500 ms and cancels the previous timer in its
cleanup.  We model a time-stamped stream of filter writes processed in
order: each write first lets an already-due pending timer fire (or
cancels a not-yet-due one, the `clearTimeout`), then schedules a fresh
timer 500 ms out carrying the post-write vector. -/

/-- A write to one of the three filter axes. -/
inductive FilterWrite where
  | setQuery (t : String)
  | setOrgUnit (d : String)
  | setCategory (c : String)
deriving Repr, DecidableEq

/-- Applying a filter write to the vector. -/
def applyWrite (v : FilterVector) : FilterWrite → FilterVector
  | FilterWrite.setQuery t => { v with searchQuery := t }
  | FilterWrite.setOrgUnit d => { v with selectedDepartment := d }
  | FilterWrite.setCategory c => { v with selectedDocType := c }

/-- The debounce delay of the `setTimeout` in the effect. -/
def debounceDelay : Nat := 500

/-- State of the debounce machine: current filter vector, the pending
timer (fire time and the vector its `fetchDocuments` closure captured),
and the refreshes fired so far, in order. -/
structure DebounceState where
  vector : FilterVector
  pending : Option (Nat × FilterVector)
  fired : List (Nat × FilterVector)
deriving Repr, DecidableEq

/-- Processing one filter write at time `t`: a pending timer that was
already due has fired; one still pending is cancelled by the effect
cleanup; then the write is applied and a new timer is scheduled at
`t + 500` capturing the new vector. -/
def debounceWrite (s : DebounceState) (t : Nat) (w : FilterWrite) : DebounceState :=
  let fired1 :=
    match s.pending with
    | some (ft, fv) => if ft ≤ t then s.fired ++ [(ft, fv)] else s.fired
    | none => s.fired
  let v := applyWrite s.vector w
  { vector := v, pending := some (t + debounceDelay, v), fired := fired1 }

/-- After the write stream goes quiet, the last scheduled timer fires. -/
def debounceFinish (s : DebounceState) : DebounceState :=
  match s.pending with
  | some (ft, fv) => { s with pending := none, fired := s.fired ++ [(ft, fv)] }
  | none => s

/-- Running the debounce machine from a quiescent state (vector `v0`,
no timer pending, nothing fired) over a time-stamped write stream,
then letting the final timer fire. -/
def debounceRun (v0 : FilterVector) (events : List (Nat × FilterWrite)) : DebounceState :=
  debounceFinish
    (events.foldl (fun s e => debounceWrite s e.1 e.2)
      { vector := v0, pending := none, fired := [] })

/-! ## Theorems -/

/-- Auxiliary loop invariant for the debounce machine: while every next
write lands strictly before the pending timer is due, no timer ever
fires, the pending timer always carries the latest vector, and its fire
time tracks the last write plus the delay. -/
lemma debounce_loop (events : List (Nat × FilterWrite)) :
    ∀ (tp : Nat) (v : FilterVector) (f : List (Nat × FilterVector)),
    List.Chain (fun a b => b < a + debounceDelay) tp (events.map Prod.fst) →
    events.foldl (fun s e => debounceWrite s e.1 e.2)
      { vector := v, pending := some (tp + debounceDelay, v), fired := f } =
    { vector := events.foldl (fun w e => applyWrite w e.2) v
      pending := some ((events.map Prod.fst).getLastD tp + debounceDelay,
                       events.foldl (fun w e => applyWrite w e.2) v)
      fired := f } := by
  induction events with
  | nil => intro tp v f _; simp
  | cons e rest ih =>
      intro tp v f hchain
      obtain ⟨t, w⟩ := e
      simp only [List.map_cons, List.chain_cons] at hchain
      obtain ⟨hlt, hchain2⟩ := hchain
      have hstep :
          debounceWrite { vector := v, pending := some (tp + debounceDelay, v), fired := f } t w =
          { vector := applyWrite v w
            pending := some (t + debounceDelay, applyWrite v w)
            fired := f } := by
        simp [debounceWrite, Nat.not_le.mpr hlt]
      simp only [List.foldl_cons]
      rw [hstep, ih t (applyWrite v w) f hchain2]
      simp only [List.map_cons, List.getLastD_cons]

/-- C1: a nonempty burst of filter writes in which each write lands
inside the 500 ms quiescence window of its predecessor produces exactly
one refresh, fired 500 ms after the last write, with the vector holding
every write applied in order (the last-written filter vector). -/
theorem C1_debounce_single_refresh (v0 : FilterVector) (e0 : Nat × FilterWrite)
    (rest : List (Nat × FilterWrite))
    (hchain : List.Chain (fun a b => b < a + debounceDelay) e0.1 (rest.map Prod.fst)) :
    (debounceRun v0 (e0 :: rest)).fired =
      [((rest.map Prod.fst).getLastD e0.1 + debounceDelay,
        (e0 :: rest).foldl (fun w e => applyWrite w e.2) v0)] := by
  obtain ⟨t0, w0⟩ := e0
  unfold debounceRun
  simp only [List.foldl_cons]
  have hstep :
      debounceWrite { vector := v0, pending := none, fired := [] } t0 w0 =
      { vector := applyWrite v0 w0
        pending := some (t0 + debounceDelay, applyWrite v0 w0)
        fired := [] } := by
    simp [debounceWrite]
  rw [hstep, debounce_loop rest t0 (applyWrite v0 w0) [] hchain]
  simp [debounceFinish]

/-- Witness for C1: three writes at times 0, 200, 550 (each gap below
500 ms) produce exactly one refresh, at time 1050, with the final
vector. -/
theorem C1_debounce_witness :
    (debounceRun
      { searchQuery := "", selectedDepartment := "all", selectedDocType := "all-types" }
      [(0, FilterWrite.setQuery "saf"), (200, FilterWrite.setQuery "safety"),
       (550, FilterWrite.setOrgUnit "safety")]).fired =
      [(1050,
        { searchQuery := "safety", selectedDepartment := "safety",
          selectedDocType := "all-types" })] := by
  have h := C1_debounce_single_refresh
    { searchQuery := "", selectedDepartment := "all", selectedDocType := "all-types" }
    (0, FilterWrite.setQuery "saf")
    [(200, FilterWrite.setQuery "safety"), (550, FilterWrite.setOrgUnit "safety")]
    (by norm_num [List.chain_cons, debounceDelay])
  simpa using h

/-- C2: a successful refresh replaces `documents` with the response's
document list verbatim and `totalDocuments` with the response's total,
whatever the prior state was, and leaves no error set. -/
theorem C2_refresh_success (s : AppState) (docs : List DocRecord) (total : Int) :
    (fetchDocuments s (FetchOutcome.success docs total)).1.documents = docs ∧
    (fetchDocuments s (FetchOutcome.success docs total)).1.totalDocuments = total ∧
    (fetchDocuments s (FetchOutcome.success docs total)).1.error = none ∧
    (fetchDocuments s (FetchOutcome.success docs total)).1.loading = false := by
  refine ⟨rfl, rfl, rfl, rfl⟩

/-- C5: a failed refresh sets the user-visible error message, empties
`documents`, and leaves `totalDocuments` holding its previous value. -/
theorem C5_refresh_failure (s : AppState) :
    (fetchDocuments s FetchOutcome.failure).1.error =
      some "Could not load documents. Please try again later." ∧
    (fetchDocuments s FetchOutcome.failure).1.documents = [] ∧
    (fetchDocuments s FetchOutcome.failure).1.totalDocuments = s.totalDocuments ∧
    (fetchDocuments s FetchOutcome.failure).1.loading = false := by
  refine ⟨rfl, rfl, rfl, rfl⟩

/-- C6: the request parameter for an axis is present exactly when that
axis differs from its sentinel, and then carries the axis value itself;
sentinel axes contribute no parameter at all.  The request issued by
`fetchDocuments` is exactly `buildParams` of the current vector. -/
theorem C6_sentinel_params (v : FilterVector) :
    (∀ val, ("search", val) ∈ buildParams v ↔ (v.searchQuery ≠ "" ∧ val = v.searchQuery)) ∧
    (∀ val, ("department", val) ∈ buildParams v ↔
      (v.selectedDepartment ≠ "all" ∧ val = v.selectedDepartment)) ∧
    (∀ val, ("type", val) ∈ buildParams v ↔
      (v.selectedDocType ≠ "all-types" ∧ val = v.selectedDocType)) ∧
    (∀ (s : AppState) (o : FetchOutcome),
      (fetchDocuments s o).2 = buildParams (currentFilter s)) := by
  refine ⟨?_, ?_, ?_, ?_⟩
  · intro val
    by_cases h1 : v.searchQuery = "" <;>
      by_cases h2 : v.selectedDepartment = "all" <;>
        by_cases h3 : v.selectedDocType = "all-types" <;>
          simp_all [buildParams, Prod.ext_iff, eq_comm]
  · intro val
    by_cases h1 : v.searchQuery = "" <;>
      by_cases h2 : v.selectedDepartment = "all" <;>
        by_cases h3 : v.selectedDocType = "all-types" <;>
          simp_all [buildParams, Prod.ext_iff, eq_comm]
  · intro val
    by_cases h1 : v.searchQuery = "" <;>
      by_cases h2 : v.selectedDepartment = "all" <;>
        by_cases h3 : v.selectedDocType = "all-types" <;>
          simp_all [buildParams, Prod.ext_iff, eq_comm]
  · intro s o
    cases o <;> rfl

/-! ## Sample data for the closed witnesses -/

/-- A sample record matching the shape returned by the backend. -/
def sampleDoc : DocRecord :=
  { _id := "d1", title := "Circular 12", summary := "Track safety circular",
    status := "approved", department := "safety", type := "Safety Circular",
    date := "2024-01-01", language := "English", tags := ["metro"],
    source := "upload", starred := false, content := none, tables_data := [] }

/-- A second sample record with a different identifier. -/
def sampleDoc2 : DocRecord :=
  { sampleDoc with _id := "d2", title := "Invoice 7", starred := true }

/-- A sample component state holding the two records. -/
def sampleState : AppState :=
  { activeTab := "documents", searchQuery := "", selectedDepartment := "all",
    selectedDocType := "all-types", notificationCount := 15,
    documents := [sampleDoc, sampleDoc2], totalDocuments := 2, loading := false,
    error := none, viewingDocument := none }

/-- C3: declining the confirm gate leaves everything untouched and no
DELETE is issued; a confirmed delete whose remote call succeeds leaves
no record with the deleted identifier and decrements `totalDocuments`
by exactly one; a confirmed delete whose remote call fails leaves the
state untouched and surfaces the error. -/
theorem C3_delete_gate_and_effect (s : AppState) (docId : String) (remote : RemoteResult) :
    handleDeleteDocument s docId false remote =
      (s, { remoteCalled := false, alertMsg := none }) ∧
    (handleDeleteDocument s docId true RemoteResult.ok).2.remoteCalled = true ∧
    (∀ d ∈ (handleDeleteDocument s docId true RemoteResult.ok).1.documents,
      d._id ≠ docId) ∧
    (handleDeleteDocument s docId true RemoteResult.ok).1.totalDocuments =
      s.totalDocuments - 1 ∧
    handleDeleteDocument s docId true RemoteResult.err =
      (s, { remoteCalled := true, alertMsg := some "Failed to delete the document." }) := by
  refine ⟨rfl, rfl, ?_, rfl, rfl⟩
  intro d hd
  simp only [handleDeleteDocument, Bool.not_true, Bool.false_eq_true, if_false,
    List.mem_filter, bne_iff_ne, ne_eq] at hd
  exact hd.2

/-- Witness for C3 at a concrete state: deleting `"d1"` from the sample
state. -/
theorem C3_delete_witness :
    handleDeleteDocument sampleState "d1" false RemoteResult.ok =
      (sampleState, { remoteCalled := false, alertMsg := none }) ∧
    (∀ d ∈ (handleDeleteDocument sampleState "d1" true RemoteResult.ok).1.documents,
      d._id ≠ "d1") ∧
    (handleDeleteDocument sampleState "d1" true RemoteResult.ok).1.totalDocuments = 1 := by
  obtain ⟨h1, _h2, h3, h4, _h5⟩ := C3_delete_gate_and_effect sampleState "d1" RemoteResult.ok
  refine ⟨h1, h3, ?_⟩
  rw [h4]
  decide

/-- C4: the new flag is the inversion of the passed record's current
flag and is applied to the matching local record only in the
remote-success case; on remote failure the whole state is untouched and
the error is alerted. -/
theorem C4_star_only_after_confirmation (s : AppState) (d : DocRecord) :
    (handleStarDocument s d RemoteResult.err).1 = s ∧
    (handleStarDocument s d RemoteResult.err).2 = some "Failed to update document." ∧
    (∀ i : Nat,
      ((handleStarDocument s d RemoteResult.ok).1.documents)[i]? =
        (s.documents[i]?).map (fun doc =>
          if doc._id = d._id then { doc with starred := !d.starred } else doc)) := by
  refine ⟨rfl, rfl, ?_⟩
  intro i
  simp [handleStarDocument]

/-- C8 helper: flipping the starred flag of the records with a given
identifier and then flipping it back is the identity on the list, as
long as every record with that identifier currently carries flag `b`. -/
lemma star_map_cancel (docs : List DocRecord) (i : String) (b : Bool)
    (h : ∀ x ∈ docs, x._id = i → x.starred = b) :
    (docs.map (fun doc => if doc._id = i then { doc with starred := !b } else doc)).map
      (fun doc => if doc._id = i then { doc with starred := !(!b) } else doc) = docs := by
  rw [List.map_map]
  have hcong : ∀ x ∈ docs,
      ((fun doc => if doc._id = i then { doc with starred := !(!b) } else doc) ∘
       (fun doc => if doc._id = i then { doc with starred := !b } else doc)) x = x := by
    intro x hx
    by_cases hid : x._id = i
    · have hb : x.starred = b := h x hx hid
      cases x
      simp_all [Function.comp]
    · simp [Function.comp, hid]
  rw [List.map_congr_left hcong]
  exact List.map_id' docs

/-- C8: toggling the star flag twice on the same record, each call
remotely confirmed and each computing the new flag as the inversion of
the record's then-current flag, restores the document list exactly (the
hypothesis says the store is in sync with the passed record: every copy
with its identifier carries its current flag). -/
theorem C8_star_toggle_roundtrip (s : AppState) (d : DocRecord)
    (hsync : ∀ x ∈ s.documents, x._id = d._id → x.starred = d.starred) :
    (handleStarDocument (handleStarDocument s d RemoteResult.ok).1
        { d with starred := !d.starred } RemoteResult.ok).1.documents = s.documents := by
  have h := star_map_cancel s.documents d._id d.starred hsync
  simpa [handleStarDocument] using h

/-- Witness for C8: toggling `sampleDoc` twice in the sample state
restores the document list. -/
theorem C8_star_toggle_witness :
    (handleStarDocument (handleStarDocument sampleState sampleDoc RemoteResult.ok).1
        { sampleDoc with starred := !sampleDoc.starred } RemoteResult.ok).1.documents =
      sampleState.documents :=
  C8_star_toggle_roundtrip sampleState sampleDoc (by decide)

/-- C7: with a file selected, a successful upload alerts with the
server-reported title, re-runs the fetch with the current (unchanged)
filter vector and clears the file input; a failed upload surfaces the
server-reported message (prefixed), or the generic message when the
body carries none, and still clears the file input. -/
theorem C7_upload_outcomes (s : AppState) (f0 : String) (fs : List String)
    (title msg : String) :
    handleFileUpload s (f0 :: fs) (UploadOutcome.success title) =
      ({ s with loading := false, error := none },
       { uploadCalled := true
         alerts := ["Successfully uploaded and processed: " ++ title]
         refreshedWith := some (currentFilter s)
         fileInputCleared := true }) ∧
    handleFileUpload s (f0 :: fs) (UploadOutcome.failureWithMsg msg) =
      ({ s with loading := false, error := some ("File upload failed: " ++ msg) },
       { uploadCalled := true
         alerts := ["File upload failed: " ++ msg]
         refreshedWith := none
         fileInputCleared := true }) ∧
    handleFileUpload s (f0 :: fs) UploadOutcome.failureNoMsg =
      ({ s with loading := false, error := some ("File upload failed: " ++ "File upload failed") },
       { uploadCalled := true
         alerts := ["File upload failed: " ++ "File upload failed"]
         refreshedWith := none
         fileInputCleared := true }) := by
  refine ⟨rfl, rfl, rfl⟩

/-- C9: opening the detail modal on a record and closing it again
leaves `documents` and `totalDocuments` exactly as they were; the modal
state is a single optional record reference. -/
theorem C9_view_modal_pure_read (s : AppState) (d : DocRecord) :
    (handleViewDocument s d).documents = s.documents ∧
    (handleViewDocument s d).totalDocuments = s.totalDocuments ∧
    (handleViewDocument s d).viewingDocument = some d ∧
    (closeViewModal (handleViewDocument s d)).documents = s.documents ∧
    (closeViewModal (handleViewDocument s d)).totalDocuments = s.totalDocuments ∧
    (closeViewModal (handleViewDocument s d)).viewingDocument = none := by
  refine ⟨rfl, rfl, rfl, rfl, rfl, rfl⟩

/-- C10: invoking the upload handler with no file selected is a
complete no-op: the state (loading flag, error, documents, total) is
returned unchanged, no POST is issued, no alert is shown, no refresh is
triggered, and the file input is not cleared. -/
theorem C10_upload_no_file_noop (s : AppState) (outcome : UploadOutcome) :
    handleFileUpload s [] outcome =
      (s, { uploadCalled := false, alerts := [], refreshedWith := none,
            fileInputCleared := false }) := rfl
